import Mathlib

/-!
Shallow embedding of the authentication and invoice-mutation action layer of
the SportVFC/nextjs dashboard application.

Source files embedded here:
  - src/app/lib/actions.ts : FormSchema (Zod), createInvoice, updateInvoice,
    deleteInvoice, authenticate
  - src/unnamed/part_000 (the NextAuth configuration file) : getUser, authorize

Modelling conventions.
  - FormData.get returns either a string or null; a raw form is a record of
    Option String fields.
  - JavaScript numbers are modelled as rationals.  The Number() coercion used
    by z.coerce.number() is modelled for the decimal fragment actually fed to
    it by the form (optional sign, digits, optional fractional part, optional
    surrounding spaces; Number(null) = 0, Number of the empty string = 0);
    every other string is mapped to none, standing for NaN.
  - Side effects (SQL statements issued, revalidatePath calls, console logs)
    are recorded in an explicit trace, in the order the calls are issued.
    A call appears in the trace whether it succeeds or throws; fault
    injection flags say which store calls throw.
  - redirect() is a non-local exit; an action run therefore ends in either a
    returned State value or a redirect, never both.
  - new Date().toISOString().split for the day part is an external input and
    is passed to createInvoice as the parameter today.
-/

/-- A raw invoice form as read by formData.get: each field is a string when
present and none when the field was absent from the submission. -/
structure RawForm where
  customerId : Option String
  amount : Option String
  status : Option String
deriving DecidableEq

/-- Invoice status enumeration, as in the Zod schema z.enum. -/
inductive Status
| pending
| paid
deriving DecidableEq

/-- Drop leading and trailing spaces, as Number() does on strings. -/
def trimSpaces (cs : List Char) : List Char :=
  ((cs.dropWhile (fun c => c = ' ')).reverse.dropWhile (fun c => c = ' ')).reverse

/-- Split an optional leading sign off a character list, returning the sign
as a rational factor. -/
def splitSign : List Char → ℚ × List Char
| '-' :: t => (-1, t)
| '+' :: t => (1, t)
| t => (1, t)

/-- Read a digit string as a natural number together with the number of
digits read; none when a non-digit occurs. -/
def decDigits (cs : List Char) : Option (Nat × Nat) :=
  cs.foldl
    (fun acc c =>
      match acc with
      | none => none
      | some (v, k) => if c.isDigit then some (v * 10 + (c.toNat - 48), k + 1) else none)
    (some (0, 0))

/-- The JavaScript Number() coercion on strings, restricted to the decimal
fragment (optional spaces, optional sign, digits with an optional single
decimal point).  The empty string coerces to 0.  Strings outside this
fragment are mapped to none, which stands for NaN. -/
def jsNumber (s : String) : Option ℚ :=
  let cs := trimSpaces s.toList
  if cs.isEmpty then some 0
  else
    let p := splitSign cs
    let intPart := p.2.takeWhile Char.isDigit
    let rest := p.2.dropWhile Char.isDigit
    match rest with
    | [] =>
      match decDigits intPart with
      | some (v, _) => if intPart.isEmpty then none else some (p.1 * v)
      | none => none
    | '.' :: fracPart =>
      if fracPart.all Char.isDigit then
        if intPart.isEmpty && fracPart.isEmpty then none
        else
          match decDigits intPart, decDigits fracPart with
          | some (iv, _), some (fv, fk) => some (p.1 * ((iv : ℚ) + (fv : ℚ) / 10 ^ fk))
          | _, _ => none
      else none
    | _ => none

/-- z.coerce.number() applies Number() to the raw field value before
validating; Number(null) = 0. -/
def coerceAmount : Option String → Option ℚ
| none => some 0
| some s => jsNumber s

/-- Field errors as produced by validatedFields.error.flatten().fieldErrors:
for each field of the schema, the list of messages attached to it (empty
when the field validated). -/
structure FieldErrors where
  customerId : List String
  amount : List String
  status : List String
deriving DecidableEq

/-- The values carried by a successful safeParse of the CreateInvoice /
UpdateInvoice schema (FormSchema with id and date omitted). -/
structure Parsed where
  customerId : String
  amount : ℚ
  status : Status
deriving DecidableEq

/-- customerId field of FormSchema: z.string with invalid_type_error
"Please select a customer.".  Any string, the empty string included, passes;
null (an absent field) is an invalid type. -/
def parseCustomerId : Option String → Except (List String) String
| some s => .ok s
| none => .error ["Please select a customer."]

/-- amount field of FormSchema: z.coerce.number().gt(0, message).  NaN after
coercion is an invalid type (default Zod message); a number not greater than
0 gets the configured too-small message. -/
def parseAmount (v : Option String) : Except (List String) ℚ :=
  match coerceAmount v with
  | none => .error ["Expected number, received nan"]
  | some q => if 0 < q then .ok q else .error ["Please enter an amount greater than $0."]

/-- status field of FormSchema: z.enum of pending and paid with
invalid_type_error "Please select an invoice status." for a non-string
input; a string outside the enum gets the default invalid-enum-value
message (its quoted received-value detail elided here). -/
def parseStatus : Option String → Except (List String) Status
| none => .error ["Please select an invoice status."]
| some s =>
  if s = "pending" then .ok .pending
  else if s = "paid" then .ok .paid
  else .error ["Invalid enum value. Expected pending or paid, received " ++ s]

/-- Read the error list out of a field result; empty for a field that
validated. -/
def errsOf {α : Type} : Except (List String) α → List String
| .error e => e
| .ok _ => []

deriving instance DecidableEq for Except

/-- CreateInvoice.safeParse / UpdateInvoice.safeParse on the three raw form
fields: success carries the parsed data, failure carries the flattened
field-error map with every failing field reported. -/
def safeParseInvoiceForm (f : RawForm) : Except FieldErrors Parsed :=
  match parseCustomerId f.customerId, parseAmount f.amount, parseStatus f.status with
  | .ok c, .ok a, .ok s => .ok ⟨c, a, s⟩
  | rc, ra, rs => .error ⟨errsOf rc, errsOf ra, errsOf rs⟩

/-- Side-effecting calls an invoice action can issue, in the order issued.
A call is recorded whether or not it subsequently throws. -/
inductive Effect
| insert (customerId : String) (amountInCents : ℚ) (status : Status) (date : String)
| update (id : String) (customerId : String) (amountInCents : ℚ) (status : Status)
| deleteRow (id : String)
| revalidate (path : String)
deriving DecidableEq

/-- The State type returned to useActionState: an optional field-error map
and an optional top-level message. -/
structure State where
  errors : Option FieldErrors
  message : Option String
deriving DecidableEq

/-- How an action invocation ends: an ordinary return of a State value, or a
non-local control transfer to a path via redirect(). -/
inductive Outcome
| ret (s : State)
| redirectTo (path : String)
deriving DecidableEq

/-- Whether an outcome is a redirect control transfer. -/
def Outcome.isRedirect : Outcome → Bool
| .redirectTo _ => true
| .ret _ => false

/-- One complete run of an action: its outcome plus the trace of
side-effecting calls it issued. -/
structure Run where
  result : Outcome
  effects : List Effect
deriving DecidableEq

/-- The field errors of a run that returned a State, none otherwise. -/
def Run.stateErrors : Run → Option FieldErrors
| ⟨.ret s, _⟩ => s.errors
| ⟨.redirectTo _, _⟩ => none

/-- The top-level message of a run that returned a State, none otherwise. -/
def Run.stateMessage : Run → Option String
| ⟨.ret s, _⟩ => s.message
| ⟨.redirectTo _, _⟩ => none

/-- createInvoice from src/app/lib/actions.ts.  insertFails injects a throw
from the INSERT statement; today is the value of
new Date().toISOString().split at the T, index 0. -/
def createInvoice (f : RawForm) (insertFails : Bool) (today : String) : Run :=
  match safeParseInvoiceForm f with
  | .error e =>
    ⟨.ret ⟨some e, some "Missing Fields. Failed to Create Invoice."⟩, []⟩
  | .ok p =>
    let amountInCents := p.amount * 100
    if insertFails then
      ⟨.ret ⟨none, some "Database Error: Failed to Create Invoice."⟩,
        [.insert p.customerId amountInCents p.status today]⟩
    else
      ⟨.redirectTo "/dashboard/invoices",
        [.insert p.customerId amountInCents p.status today,
         .revalidate "/dashboard/invoices"]⟩

/-- updateInvoice from src/app/lib/actions.ts.  updateFails injects a throw
from the UPDATE statement. -/
def updateInvoice (id : String) (f : RawForm) (updateFails : Bool) : Run :=
  match safeParseInvoiceForm f with
  | .error e =>
    ⟨.ret ⟨some e, some "Missing Fields. Failed to Update Invoice."⟩, []⟩
  | .ok p =>
    let amountInCents := p.amount * 100
    if updateFails then
      ⟨.ret ⟨none, some "Database Error: Failed to Update Invoice."⟩,
        [.update id p.customerId amountInCents p.status]⟩
    else
      ⟨.redirectTo "/dashboard/invoices",
        [.update id p.customerId amountInCents p.status,
         .revalidate "/dashboard/invoices"]⟩

/-- deleteInvoice from src/app/lib/actions.ts.  Both the DELETE statement
and the revalidatePath call sit inside the same try block; deleteFails and
revalidateFails inject a throw from each.  No redirect is ever issued. -/
def deleteInvoice (id : String) (deleteFails revalidateFails : Bool) : Run :=
  if deleteFails then
    ⟨.ret ⟨none, some "Database Error: Failed to Delete Invoice."⟩, [.deleteRow id]⟩
  else if revalidateFails then
    ⟨.ret ⟨none, some "Database Error: Failed to Delete Invoice."⟩,
      [.deleteRow id, .revalidate "/dashboard/invoices"]⟩
  else
    ⟨.ret ⟨none, some "Deleted Invoice."⟩,
      [.deleteRow id, .revalidate "/dashboard/invoices"]⟩

/-- A user row of the users table, as in app/lib/definitions.ts; password
holds the stored bcrypt hash. -/
structure User where
  id : String
  name : String
  email : String
  password : String
deriving DecidableEq

/-- Outcome of the SELECT issued by getUser for one email: the result rows,
or a throw from the store (unreachable database). -/
inductive LookupOutcome
| rows (us : List User)
| failure
deriving DecidableEq

/-- Side effects of the credential-verification path: the SQL lookup by
email and console output (console.error in getUser, console.log in
authorize). -/
inductive AuthEffect
| lookup (email : String)
| log (msg : String)
deriving DecidableEq

/-- One run of a function on the credential path: a value or a thrown error
message, plus the trace of effects. -/
structure AuthRun (α : Type) where
  result : Except String α
  trace : List AuthEffect
deriving DecidableEq

/-- getUser from the NextAuth configuration file: SELECT the user by email
and return rows at index 0 (undefined, that is none, when no row matches);
on a store failure, log and throw the generic persistence error. -/
def getUser (store : String → LookupOutcome) (email : String) : AuthRun (Option User) :=
  match store email with
  | .rows us => ⟨.ok us.head?, [.lookup email]⟩
  | .failure => ⟨.error "Failed to fetch user.", [.lookup email, .log "Failed to fetch user:"]⟩

/-- authorize from the Credentials provider in the NextAuth configuration
file.  The Zod object schema requires email to be an email-shaped string
(the Zod email predicate is the external parameter isEmail) and password to
be a string of length at least 6.  Only when both constraints hold is
getUser called; a missing user or a failed bcrypt.compare yields null; a
throw from getUser is not caught and propagates. -/
def authorize (isEmail : String → Bool) (bcryptCompare : String → String → Bool)
    (store : String → LookupOutcome) (credEmail credPassword : Option String) :
    AuthRun (Option User) :=
  match credEmail, credPassword with
  | some e, some pw =>
    if isEmail e && 6 ≤ pw.length then
      let g := getUser store e
      match g.result with
      | .error m => ⟨.error m, g.trace⟩
      | .ok none => ⟨.ok none, g.trace⟩
      | .ok (some u) =>
        if bcryptCompare pw u.password then ⟨.ok (some u), g.trace⟩
        else ⟨.ok none, g.trace ++ [.log "Invalid credentials"]⟩
    else ⟨.ok none, [.log "Invalid credentials"]⟩
  | _, _ => ⟨.ok none, [.log "Invalid credentials"]⟩

/-- What the signIn collaborator did when authenticate awaited it: success,
a thrown AuthError of some kind (its type field), or a thrown value that is
not an AuthError, tagged opaquely. -/
inductive SignInOutcome
| success
| authError (kind : String)
| otherError (tag : String)
deriving DecidableEq

/-- How authenticate ends: a returned error string, an ordinary completion
with no value, or a re-thrown error. -/
inductive AuthenticateResult
| message (s : String)
| completed
| reraised (tag : String)
deriving DecidableEq

/-- authenticate from src/app/lib/actions.ts: await signIn inside try; an
AuthError is classified by its type field (CredentialsSignin versus every
other kind); anything that is not an AuthError is re-thrown unchanged. -/
def authenticate : SignInOutcome → AuthenticateResult
| .success => .completed
| .authError k =>
  if k = "CredentialsSignin" then .message "Invalid credentials."
  else .message "Something went wrong."
| .otherError t => .reraised t

/-- A row of the invoices table, as in app/lib/definitions.ts. -/
structure InvoiceRow where
  id : String
  customer_id : String
  amount : ℚ
  status : Status
  date : String
deriving DecidableEq

/-- The effect of the UPDATE statement of updateInvoice on one stored row:
the row whose id matches the WHERE clause gets the three SET columns
overwritten, every other row is returned unchanged. -/
def applyUpdateRow (id cid : String) (amt : ℚ) (st : Status) (r : InvoiceRow) : InvoiceRow :=
  if r.id = id then ⟨r.id, cid, amt, st, r.date⟩ else r

/-- The UPDATE statement over the whole invoices table. -/
def applyUpdateSql (db : List InvoiceRow) (id cid : String) (amt : ℚ) (st : Status) :
    List InvoiceRow :=
  db.map (applyUpdateRow id cid amt st)

/-! ### Evaluation helpers -/

theorem jsNumber_80 : jsNumber "80" = some 80 := by with_unfolding_all decide

theorem jsNumber_0 : jsNumber "0" = some 0 := by with_unfolding_all decide

theorem jsNumber_0005 : jsNumber "0.005" = some (1 / 200) := by with_unfolding_all decide

theorem parse_c1_80_pending :
    safeParseInvoiceForm ⟨some "c1", some "80", some "pending"⟩ =
      .ok ⟨"c1", 80, .pending⟩ := by
  norm_num [safeParseInvoiceForm, parseCustomerId, parseAmount, parseStatus, coerceAmount,
    jsNumber_80]

theorem parse_c1_0005_pending :
    safeParseInvoiceForm ⟨some "c1", some "0.005", some "pending"⟩ =
      .ok ⟨"c1", 1 / 200, .pending⟩ := by
  norm_num [safeParseInvoiceForm, parseCustomerId, parseAmount, parseStatus, coerceAmount,
    jsNumber_0005]

theorem parse_empty_80_pending :
    safeParseInvoiceForm ⟨some "", some "80", some "pending"⟩ =
      .ok ⟨"", 80, .pending⟩ := by
  norm_num [safeParseInvoiceForm, parseCustomerId, parseAmount, parseStatus, coerceAmount,
    jsNumber_80]

/-! ### Structural helpers on the validation schema and the actions -/

theorem parseAmount_nonpos (a : Option String) (q : ℚ)
    (hc : coerceAmount a = some q) (hq : q ≤ 0) :
    parseAmount a = .error ["Please enter an amount greater than $0."] := by
  unfold parseAmount
  rw [hc]
  simp [not_lt.mpr hq]

theorem safeParse_customerId_none (a s : Option String) :
    safeParseInvoiceForm ⟨none, a, s⟩ =
      .error ⟨["Please select a customer."], errsOf (parseAmount a), errsOf (parseStatus s)⟩ := by
  cases h1 : parseAmount a <;> cases h2 : parseStatus s <;>
    simp [safeParseInvoiceForm, parseCustomerId, errsOf, h1, h2]

theorem safeParse_amount_error (c s : Option String) (msgs : List String) (a : Option String)
    (ha : parseAmount a = .error msgs) :
    safeParseInvoiceForm ⟨c, a, s⟩ =
      .error ⟨errsOf (parseCustomerId c), msgs, errsOf (parseStatus s)⟩ := by
  cases h1 : parseCustomerId c <;> cases h2 : parseStatus s <;>
    simp [safeParseInvoiceForm, errsOf, h1, h2, ha]

theorem createInvoice_validation_failure (f : RawForm) (e : FieldErrors) (b : Bool)
    (today : String) (h : safeParseInvoiceForm f = .error e) :
    createInvoice f b today =
      ⟨.ret ⟨some e, some "Missing Fields. Failed to Create Invoice."⟩, []⟩ := by
  simp [createInvoice, h]

theorem updateInvoice_validation_failure (id : String) (f : RawForm) (e : FieldErrors) (b : Bool)
    (h : safeParseInvoiceForm f = .error e) :
    updateInvoice id f b =
      ⟨.ret ⟨some e, some "Missing Fields. Failed to Update Invoice."⟩, []⟩ := by
  simp [updateInvoice, h]

/-! ### Claim theorems -/

/-- C1 (amended): for every submission whose fields validate, createInvoice
computes amountInCents = amount × 100 (a rational that need not be an
integer), assigns date = the externally supplied current calendar day,
performs exactly one insert of (customerId, amountInCents, status, date),
then invalidates the /dashboard/invoices cache, and exits by a redirect
control transfer to /dashboard/invoices instead of returning a value. -/
theorem createInvoice_success_behavior (f : RawForm) (p : Parsed) (today : String)
    (h : safeParseInvoiceForm f = .ok p) :
    createInvoice f false today =
      ⟨.redirectTo "/dashboard/invoices",
        [.insert p.customerId (p.amount * 100) p.status today,
         .revalidate "/dashboard/invoices"]⟩ := by
  simp [createInvoice, h]

/-- C1 witness: the valid submission (c1, 80, pending) is inserted with
amountInCents 8000 on date 2026-10-11, the cache is invalidated, and the run
ends in the redirect. -/
theorem createInvoice_success_behavior_witness :
    safeParseInvoiceForm ⟨some "c1", some "80", some "pending"⟩ =
        .ok ⟨"c1", 80, .pending⟩ ∧
    createInvoice ⟨some "c1", some "80", some "pending"⟩ false "2026-10-11" =
      ⟨.redirectTo "/dashboard/invoices",
        [.insert "c1" 8000 .pending "2026-10-11", .revalidate "/dashboard/invoices"]⟩ := by
  refine ⟨parse_c1_80_pending, ?_⟩
  have h := createInvoice_success_behavior _ _ "2026-10-11" parse_c1_80_pending
  rw [h]
  norm_num

/-- C1 counterexample: the submission with amount 0.005 validates (0.005 is
greater than 0), yet the amountInCents the insert carries is 1/2, whose
denominator is 2: amount × 100 is not an integer, against the claim as
stated. -/
theorem createInvoice_amountInCents_not_integer :
    (createInvoice ⟨some "c1", some "0.005", some "pending"⟩ false "2026-10-11").effects =
      [.insert "c1" (1 / 2) .pending "2026-10-11", .revalidate "/dashboard/invoices"] ∧
    ((1 : ℚ) / 2).den ≠ 1 := by
  constructor
  · rw [show createInvoice ⟨some "c1", some "0.005", some "pending"⟩ false "2026-10-11" =
        ⟨.redirectTo "/dashboard/invoices",
          [.insert "c1" (1 / 200 * 100) .pending "2026-10-11",
           .revalidate "/dashboard/invoices"]⟩ by
      simp [createInvoice, parse_c1_0005_pending]]
    norm_num
  · with_unfolding_all decide

/-- C2 (amended): for every Create or Update submission in which customerId
is absent (formData.get returned null), the action returns the field error
"Please select a customer." on customerId together with the corresponding
Missing Fields top-level message and performs no persistence call.  An
empty-string customerId, by contrast, passes z.string() and is persisted
(see the counterexample). -/
theorem absent_customerId_field_error (a s : Option String) (b : Bool) (today id : String) :
    (createInvoice ⟨none, a, s⟩ b today).stateErrors.map FieldErrors.customerId =
        some ["Please select a customer."] ∧
    (createInvoice ⟨none, a, s⟩ b today).stateMessage =
        some "Missing Fields. Failed to Create Invoice." ∧
    (createInvoice ⟨none, a, s⟩ b today).effects = [] ∧
    (updateInvoice id ⟨none, a, s⟩ b).stateErrors.map FieldErrors.customerId =
        some ["Please select a customer."] ∧
    (updateInvoice id ⟨none, a, s⟩ b).stateMessage =
        some "Missing Fields. Failed to Update Invoice." ∧
    (updateInvoice id ⟨none, a, s⟩ b).effects = [] := by
  have hc := createInvoice_validation_failure ⟨none, a, s⟩ _ b today
    (safeParse_customerId_none a s)
  have hu := updateInvoice_validation_failure id ⟨none, a, s⟩ _ b
    (safeParse_customerId_none a s)
  rw [hc, hu]
  simp [Run.stateErrors, Run.stateMessage]

/-- C2 counterexample: a submission whose customerId is present but empty
validates, is persisted, and ends in the redirect: no field error is
returned and the persistence call is performed, against the claim as
stated for the empty case. -/
theorem createInvoice_empty_customerId_persists :
    createInvoice ⟨some "", some "80", some "pending"⟩ false "2026-10-11" =
      ⟨.redirectTo "/dashboard/invoices",
        [.insert "" 8000 .pending "2026-10-11", .revalidate "/dashboard/invoices"]⟩ := by
  rw [show createInvoice ⟨some "", some "80", some "pending"⟩ false "2026-10-11" =
      ⟨.redirectTo "/dashboard/invoices",
        [.insert "" (80 * 100) .pending "2026-10-11", .revalidate "/dashboard/invoices"]⟩ by
    simp [createInvoice, parse_empty_80_pending]]
  norm_num

/-- C3: for every Create or Update submission whose amount coerces to a
number that is not greater than 0, the action returns the field error
"Please enter an amount greater than $0." on amount with the Missing Fields
message, and performs no persistence call. -/
theorem nonpositive_amount_field_error (c s a : Option String) (q : ℚ)
    (hc : coerceAmount a = some q) (hq : q ≤ 0) (b : Bool) (today id : String) :
    (createInvoice ⟨c, a, s⟩ b today).stateErrors.map FieldErrors.amount =
        some ["Please enter an amount greater than $0."] ∧
    (createInvoice ⟨c, a, s⟩ b today).stateMessage =
        some "Missing Fields. Failed to Create Invoice." ∧
    (createInvoice ⟨c, a, s⟩ b today).effects = [] ∧
    (updateInvoice id ⟨c, a, s⟩ b).stateErrors.map FieldErrors.amount =
        some ["Please enter an amount greater than $0."] ∧
    (updateInvoice id ⟨c, a, s⟩ b).stateMessage =
        some "Missing Fields. Failed to Update Invoice." ∧
    (updateInvoice id ⟨c, a, s⟩ b).effects = [] := by
  have ha := parseAmount_nonpos a q hc hq
  have hp := safeParse_amount_error c s _ a ha
  have hcr := createInvoice_validation_failure ⟨c, a, s⟩ _ b today hp
  have hup := updateInvoice_validation_failure id ⟨c, a, s⟩ _ b hp
  rw [hcr, hup]
  simp [Run.stateErrors, Run.stateMessage]

/-- C3 witness: the submission (c1, 0, pending) coerces its amount to 0 and
both actions return the amount field error with empty effect traces. -/
theorem nonpositive_amount_field_error_witness :
    (coerceAmount (some "0") = some 0 ∧ (0 : ℚ) ≤ 0) ∧
    ((createInvoice ⟨some "c1", some "0", some "pending"⟩ false "2026-10-11").stateErrors.map
          FieldErrors.amount =
        some ["Please enter an amount greater than $0."] ∧
      (createInvoice ⟨some "c1", some "0", some "pending"⟩ false "2026-10-11").stateMessage =
        some "Missing Fields. Failed to Create Invoice." ∧
      (createInvoice ⟨some "c1", some "0", some "pending"⟩ false "2026-10-11").effects = [] ∧
      (updateInvoice "i1" ⟨some "c1", some "0", some "pending"⟩ false).stateErrors.map
          FieldErrors.amount =
        some ["Please enter an amount greater than $0."] ∧
      (updateInvoice "i1" ⟨some "c1", some "0", some "pending"⟩ false).stateMessage =
        some "Missing Fields. Failed to Update Invoice." ∧
      (updateInvoice "i1" ⟨some "c1", some "0", some "pending"⟩ false).effects = []) :=
  have hc : coerceAmount (some "0") = some 0 := by simp [coerceAmount, jsNumber_0]
  ⟨⟨hc, le_refl 0⟩,
    nonpositive_amount_field_error (some "c1") (some "pending") (some "0") 0 hc (le_refl 0)
      false "2026-10-11" "i1"⟩

/-- C4: when the insert of a validated Create submission throws, the action
returns exactly the State whose errors component is absent and whose message
is "Database Error: Failed to Create Invoice."; the only call issued is the
failing insert, so neither the cache invalidation nor the redirect to
/dashboard/invoices happens. -/
theorem createInvoice_insert_failure_returns_db_error (f : RawForm) (p : Parsed)
    (today : String) (h : safeParseInvoiceForm f = .ok p) :
    createInvoice f true today =
      ⟨.ret ⟨none, some "Database Error: Failed to Create Invoice."⟩,
        [.insert p.customerId (p.amount * 100) p.status today]⟩ := by
  simp [createInvoice, h]

/-- C4 witness: the valid submission (c1, 80, pending) with a failing insert
returns the database-error message alone, with no revalidate effect and no
redirect. -/
theorem createInvoice_insert_failure_returns_db_error_witness :
    safeParseInvoiceForm ⟨some "c1", some "80", some "pending"⟩ =
        .ok ⟨"c1", 80, .pending⟩ ∧
    createInvoice ⟨some "c1", some "80", some "pending"⟩ true "2026-10-11" =
      ⟨.ret ⟨none, some "Database Error: Failed to Create Invoice."⟩,
        [.insert "c1" 8000 .pending "2026-10-11"]⟩ := by
  refine ⟨parse_c1_80_pending, ?_⟩
  have h := createInvoice_insert_failure_returns_db_error _ _ "2026-10-11" parse_c1_80_pending
  rw [h]
  norm_num

/-- C5: deleteInvoice with a successful delete issues the delete followed by
the invalidation of /dashboard/invoices and returns the State whose message
is "Deleted Invoice."; with a failing delete it returns the State whose
message is "Database Error: Failed to Delete Invoice."; and no combination
of store outcomes ever makes it end in a redirect control transfer. -/
theorem deleteInvoice_contract (id : String) (rf : Bool) :
    deleteInvoice id false false =
      ⟨.ret ⟨none, some "Deleted Invoice."⟩,
        [.deleteRow id, .revalidate "/dashboard/invoices"]⟩ ∧
    deleteInvoice id true rf =
      ⟨.ret ⟨none, some "Database Error: Failed to Delete Invoice."⟩, [.deleteRow id]⟩ ∧
    ∀ df rf2 : Bool, ((deleteInvoice id df rf2).result).isRedirect = false := by
  refine ⟨rfl, rfl, ?_⟩
  intro df rf2
  cases df <;> cases rf2 <;> rfl

/-- C6: authenticate maps a thrown AuthError of kind CredentialsSignin to
the returned string "Invalid credentials.", a thrown AuthError of every
other kind to "Something went wrong.", and re-raises unchanged anything that
is not an AuthError. -/
theorem authenticate_error_classification (k t : String) :
    authenticate (.authError k) =
      .message
        (if k = "CredentialsSignin" then "Invalid credentials." else "Something went wrong.") ∧
    authenticate (.otherError t) = .reraised t := by
  refine ⟨?_, rfl⟩
  by_cases hk : k = "CredentialsSignin" <;> simp [authenticate, hk]

/-- C7: when the submitted identifier is not email-shaped or the submitted
secret is shorter than 6 characters, authorize returns null (ok none) and
its trace holds only the console log, in particular no store lookup. -/
theorem authorize_invalid_credentials_no_lookup
    (isEmail : String → Bool) (cmp : String → String → Bool)
    (store : String → LookupOutcome) (e pw : String)
    (h : isEmail e = false ∨ pw.length < 6) :
    authorize isEmail cmp store (some e) (some pw) =
      ⟨.ok none, [.log "Invalid credentials"]⟩ := by
  rcases h with h | h
  · simp [authorize, h]
  · simp [authorize, Nat.not_le.mpr h]

/-- C7 witness: a secret of length 3 short-circuits authorize to null with
no lookup effect, whatever the email predicate, the hash comparison and the
store do. -/
theorem authorize_invalid_credentials_no_lookup_witness :
    ((fun (_ : String) => true) "u@e.co" = false ∨ "123".length < 6) ∧
    authorize (fun _ => true) (fun _ _ => true) (fun _ => .rows [])
        (some "u@e.co") (some "123") =
      ⟨.ok none, [.log "Invalid credentials"]⟩ :=
  ⟨Or.inr (by decide),
    authorize_invalid_credentials_no_lookup (fun _ => true) (fun _ _ => true)
      (fun _ => .rows []) "u@e.co" "123" (Or.inr (by decide))⟩

/-- C8: when the credentials pass validation and the store lookup fails,
authorize does not return null: the run ends with the thrown generic
persistence error "Failed to fetch user.", distinct from the ok-none result,
and the trace shows the attempted lookup followed by the error log. -/
theorem authorize_lookup_failure_raises
    (isEmail : String → Bool) (cmp : String → String → Bool)
    (store : String → LookupOutcome) (e pw : String)
    (he : isEmail e = true) (hl : 6 ≤ pw.length) (hs : store e = .failure) :
    authorize isEmail cmp store (some e) (some pw) =
      ⟨.error "Failed to fetch user.", [.lookup e, .log "Failed to fetch user:"]⟩ ∧
    (authorize isEmail cmp store (some e) (some pw)).result ≠ .ok none := by
  have hrun : authorize isEmail cmp store (some e) (some pw) =
      ⟨.error "Failed to fetch user.", [.lookup e, .log "Failed to fetch user:"]⟩ := by
    simp [authorize, getUser, he, hl, hs]
  refine ⟨hrun, ?_⟩
  rw [hrun]
  simp

/-- C8 witness: with a store that throws, a shaped email and a 6-character
secret, authorize surfaces the thrown persistence error and its result is
not the null of invalid credentials. -/
theorem authorize_lookup_failure_raises_witness :
    ((fun (_ : String) => true) "u@e.co" = true ∧ 6 ≤ "123456".length ∧
      (fun (_ : String) => LookupOutcome.failure) "u@e.co" = .failure) ∧
    (authorize (fun _ => true) (fun _ _ => true) (fun _ => .failure)
        (some "u@e.co") (some "123456") =
      ⟨.error "Failed to fetch user.", [.lookup "u@e.co", .log "Failed to fetch user:"]⟩ ∧
    (authorize (fun _ => true) (fun _ _ => true) (fun _ => .failure)
        (some "u@e.co") (some "123456")).result ≠ .ok none) :=
  ⟨⟨rfl, by decide, rfl⟩,
    authorize_lookup_failure_raises (fun _ => true) (fun _ _ => true)
      (fun _ => .failure) "u@e.co" "123456" rfl (by decide) rfl⟩

/-- C9: on a validated Update submission the action issues exactly one
UPDATE of the row matching the caller-supplied id, setting customerId,
amount-in-cents and status; applying that statement to any stored table
keeps its length, leaves every row with a different id unchanged, and
rewrites the matching row to the submitted values while keeping its id and
its date column untouched. -/
theorem updateInvoice_frame_effect (id : String) (f : RawForm) (p : Parsed)
    (h : safeParseInvoiceForm f = .ok p) :
    updateInvoice id f false =
      ⟨.redirectTo "/dashboard/invoices",
        [.update id p.customerId (p.amount * 100) p.status,
         .revalidate "/dashboard/invoices"]⟩ ∧
    ∀ db : List InvoiceRow,
      (applyUpdateSql db id p.customerId (p.amount * 100) p.status).length = db.length ∧
      ∀ r ∈ db,
        (r.id ≠ id → applyUpdateRow id p.customerId (p.amount * 100) p.status r = r) ∧
        (r.id = id → applyUpdateRow id p.customerId (p.amount * 100) p.status r =
          ⟨r.id, p.customerId, p.amount * 100, p.status, r.date⟩) := by
  refine ⟨by simp [updateInvoice, h], fun db => ⟨by simp [applyUpdateSql], fun r hr => ⟨?_, ?_⟩⟩⟩
  · intro hne
    simp [applyUpdateRow, hne]
  · intro heq
    simp [applyUpdateRow, heq]

/-- C9 witness: updating invoice i1 with the valid submission (c1, 80,
pending) issues the single UPDATE with amount 8000, and the UPDATE statement
preserves unmatched rows and the date column of the matched row. -/
theorem updateInvoice_frame_effect_witness :
    safeParseInvoiceForm ⟨some "c1", some "80", some "pending"⟩ =
        .ok ⟨"c1", 80, .pending⟩ ∧
    (updateInvoice "i1" ⟨some "c1", some "80", some "pending"⟩ false =
      ⟨.redirectTo "/dashboard/invoices",
        [.update "i1" "c1" (80 * 100) .pending, .revalidate "/dashboard/invoices"]⟩ ∧
    ∀ db : List InvoiceRow,
      (applyUpdateSql db "i1" "c1" (80 * 100) .pending).length = db.length ∧
      ∀ r ∈ db,
        (r.id ≠ "i1" → applyUpdateRow "i1" "c1" (80 * 100) .pending r = r) ∧
        (r.id = "i1" → applyUpdateRow "i1" "c1" (80 * 100) .pending r =
          ⟨r.id, "c1", 80 * 100, .pending, r.date⟩)) :=
  ⟨parse_c1_80_pending,
    updateInvoice_frame_effect "i1" ⟨some "c1", some "80", some "pending"⟩
      ⟨"c1", 80, .pending⟩ parse_c1_80_pending⟩

/-- C10: when the row deletion succeeds and the subsequent revalidatePath
call throws, deleteInvoice still returns the State whose message is
"Database Error: Failed to Delete Invoice." although the delete call was
issued and succeeded: a Database Error result from Delete does not mean the
store is unchanged. -/
theorem deleteInvoice_revalidate_failure_reports_db_error (id : String) :
    deleteInvoice id false true =
      ⟨.ret ⟨none, some "Database Error: Failed to Delete Invoice."⟩,
        [.deleteRow id, .revalidate "/dashboard/invoices"]⟩ ∧
    Effect.deleteRow id ∈ (deleteInvoice id false true).effects := by
  exact ⟨rfl, by simp [deleteInvoice]⟩
